import Mathlib

/-!
Shallow embedding of `src/lab3/machine/cpu.py` (DataPath, ControlUnit, Timer)
and verification of the specification's claims about it.

Modelling conventions:
* Python unbounded `int` is `Int`; Python `//` is `Int.fdiv` and `%` is `Int.fmod`
  (both floor/divisor-sign semantics, exactly Python's).
* A Python method that mutates `self` and may raise is embedded as a function
  returning the state the object holds when the call finishes (normally or by
  raising) together with `Option PyErr` (`none` = no exception).  This keeps the
  partial mutations a raising call leaves behind, as a Python caller observes them.
* Python list indexing (including negative-index wrap-around and `IndexError`)
  is embedded by `pyListGet` / `pyListSet`.
* The modules `machine.decoder`, `machine.isa`, `machine.machine_signals`,
  `machine.ports` and `machine.logger` are imported by `cpu.py` but are not part
  of the source tree; the spec declares them out of scope.  The opcode and
  signal enumerations are reproduced as plain inductives, the decoder and ports
  are modelled from the spec (see the doc comments below), and the logger is
  observational only (the spec: "purely observational, no effect on simulation
  state") so its calls are elided.
-/

/-- Opcode enumeration, as enumerated by the dispatch tables in `cpu.py`
(`arithmetic_operations` and the category lists in `ControlUnit.execute`). -/
inductive Opcode where
  | ADD | SUB | MUL | DIV | REM | INC | DEC | CMP | MOVH
  | LOAD | STORE
  | JMP | JGE | JE | JNE
  | CALL | RET | IRET | FUNC
  | EI | DI | VECTOR | TIMER
  | PUSH | POP
  | IN | OUT | SIGN
  | ISR | HALT
deriving DecidableEq, Repr

/-- Bus/operand selectors (`machine_signals.Operands`), as consumed by
`DataPath.get_bus_value`. -/
inductive Operands where
  | ACC | BUF | STACK | MEM
deriving DecidableEq, Repr

/-- Control signals (`machine_signals.Signal`), as consumed by the DataPath and
ControlUnit methods in `cpu.py`. -/
inductive Signal where
  | DIRECT_ACC_LOAD | DIRECT_ADDRESS_LOAD
  | READ | WRITE
  | BUF_LATCH | STACK_LATCH
  | NEXT_IP | JMP_ARG | DATA_IP
deriving DecidableEq, Repr

/-- Python exceptions that the embedded code can raise. -/
inductive PyErr where
  | zeroDivision
  | indexError
  | nonePropagated
deriving DecidableEq, Repr

/-- `cpu.py` line 6: the mutable list of arithmetic opcodes. -/
def arithmetic_operations : List Opcode :=
  [Opcode.ADD, Opcode.SUB, Opcode.MUL, Opcode.DIV, Opcode.REM, Opcode.INC,
   Opcode.DEC, Opcode.CMP, Opcode.MOVH]

/-- Modelled from the spec: the Ports module (`machine/ports.py`) is not in the
source tree.  The spec describes an input token queue fed once per tick by
`add_input(tick)` and an ordered output buffer joined into a string at halt. -/
structure Ports where
  input_tokens : List Nat
  output_buffer : List String
deriving DecidableEq, Repr

/-- Modelled from the spec: `add_input(tick)` feeds the tick timestamp into the
input queue. -/
def Ports.add_input (p : Ports) (t : Nat) : Ports :=
  { p with input_tokens := p.input_tokens ++ [t] }

/-- The two-flag status word `{"z": _, "n": _}` of the DataPath. -/
structure Flags where
  z : Bool
  n : Bool
deriving DecidableEq, Repr

/-- The DataPath state (`DataPath.__init__`). -/
structure DataPath where
  data_memory : List Int
  ports : Ports
  acc : Int
  buf_reg : Int
  stack_pointer : Int
  address_reg : Int
  memory_out : Int
  flags : Flags
  alu_out : Int
  in_interruption : Bool
deriving DecidableEq, Repr

/-- `DataPath.__init__(memory_capacity, ports)`. -/
def DataPath.init (memory_capacity : Nat) (ports : Ports) : DataPath :=
  { data_memory := List.replicate memory_capacity 0
    ports := ports
    acc := 0
    buf_reg := 0
    stack_pointer := 0
    address_reg := 0
    memory_out := 0
    flags := { z := false, n := false }
    alu_out := 0
    in_interruption := false }

/-- Python list read `l[i]`: `0 <= i < len` reads directly, `-len <= i < 0`
wraps to `len + i`, anything else raises `IndexError` (`none`). -/
def pyListGet (l : List Int) (i : Int) : Option Int :=
  if 0 ≤ i ∧ i < l.length then l.get? i.toNat
  else if -(l.length : Int) ≤ i ∧ i < 0 then l.get? ((l.length : Int) + i).toNat
  else none

/-- Python list write `l[i] = a`: same index rules as `pyListGet`. -/
def pyListSet (l : List Int) (i : Int) (a : Int) : Option (List Int) :=
  if 0 ≤ i ∧ i < l.length then some (l.set i.toNat a)
  else if -(l.length : Int) ≤ i ∧ i < 0 then some (l.set ((l.length : Int) + i).toNat a)
  else none

/-- `DataPath.signal_latch_acc(sel, load=0)`. -/
def DataPath.signal_latch_acc (dp : DataPath) (sel : Signal) (load : Int := 0) : DataPath :=
  { dp with acc := if sel = Signal.DIRECT_ACC_LOAD then load else dp.alu_out }

/-- `DataPath.signal_latch_address(sel, load=0)`. -/
def DataPath.signal_latch_address (dp : DataPath) (sel : Signal) (load : Int := 0) : DataPath :=
  { dp with address_reg := if sel = Signal.DIRECT_ADDRESS_LOAD then load else dp.alu_out }

/-- `DataPath.memory_manager(operation)`: `READ` copies the memory cell at the
address register into `memory_out`; `WRITE` stores `alu_out` into that cell;
any other signal is a no-op.  The Python list access raises `IndexError`
outside `[-len, len)`. -/
def DataPath.memory_manager (dp : DataPath) (operation : Signal) : DataPath × Option PyErr :=
  if operation = Signal.READ then
    match pyListGet dp.data_memory dp.address_reg with
    | some v => ({ dp with memory_out := v }, none)
    | none => (dp, some PyErr.indexError)
  else if operation = Signal.WRITE then
    match pyListSet dp.data_memory dp.address_reg dp.alu_out with
    | some m => ({ dp with data_memory := m }, none)
    | none => (dp, some PyErr.indexError)
  else (dp, none)

/-- `DataPath.signal_latch_regs(*regs)`. -/
def DataPath.signal_latch_regs (dp : DataPath) (regs : List Signal) : DataPath :=
  let dp := if Signal.BUF_LATCH ∈ regs then { dp with buf_reg := dp.alu_out } else dp
  if Signal.STACK_LATCH ∈ regs then { dp with stack_pointer := dp.alu_out } else dp

/-- `DataPath.execute_alu_operation(operation, value=0)`.  The result is the
state the object holds afterwards together with the Python return value:
`Except.ok (some v)` is a returned integer, `Except.ok none` is Python's
implicit `None` for an opcode no `case` matches, and `Except.error` is a raised
`ZeroDivisionError`.  Only `CMP` mutates state (the flags). -/
def DataPath.execute_alu_operation (dp : DataPath) (operation : Opcode) (value : Int := 0) :
    DataPath × Except PyErr (Option Int) :=
  match operation with
  | Opcode.ADD => (dp, Except.ok (some (dp.alu_out + value)))
  | Opcode.SUB => (dp, Except.ok (some (dp.alu_out - value)))
  | Opcode.MUL => (dp, Except.ok (some (dp.alu_out * value)))
  | Opcode.DIV =>
      if value = 0 then (dp, Except.error PyErr.zeroDivision)
      else (dp, Except.ok (some (Int.fdiv dp.alu_out value)))
  | Opcode.REM =>
      if value = 0 then (dp, Except.error PyErr.zeroDivision)
      else (dp, Except.ok (some (Int.fmod dp.alu_out value)))
  | Opcode.INC => (dp, Except.ok (some (dp.alu_out + 1)))
  | Opcode.DEC => (dp, Except.ok (some (dp.alu_out - 1)))
  | Opcode.CMP =>
      ({ dp with flags := { z := decide (dp.alu_out = value), n := decide (dp.alu_out < value) } },
       Except.ok (some dp.alu_out))
  | Opcode.MOVH => (dp, Except.ok (some (dp.alu_out * 2 ^ 24)))
  | _ => (dp, Except.ok none)

/-- `DataPath.get_bus_value(bus)`: pure read of the selected register. -/
def DataPath.get_bus_value (dp : DataPath) (bus : Operands) : Int :=
  match bus with
  | Operands.ACC => dp.acc
  | Operands.BUF => dp.buf_reg
  | Operands.STACK => dp.stack_pointer
  | Operands.MEM => dp.memory_out

/-- The statement `self.alu_out = self.execute_alu_operation(...)` of
`alu_working`, with exception semantics: a returned integer is latched into
`alu_out`, a raised error propagates with the state the call left behind, and
Python's implicit `None` return (an opcode outside the `match`) would poison
`alu_out` and is reported as `PyErr.nonePropagated` (no arithmetic opcode
reaches it). -/
def DataPath.assign_alu_out (r : DataPath × Except PyErr (Option Int)) :
    DataPath × Option PyErr :=
  match r with
  | (dp3, Except.ok (some v)) => ({ dp3 with alu_out := v }, none)
  | (dp3, Except.ok none) => (dp3, some PyErr.nonePropagated)
  | (dp3, Except.error e) => (dp3, some e)

/-- `DataPath.alu_working(operation=ADD, valves=[ACC])`:
loads `alu_out` from the first valve's bus value, recomputes flags when the
accumulator is among the valves, then applies the operation (unary for
INC/DEC/MOVH, binary when a second valve exists, otherwise nothing more).
An empty valve list raises `IndexError` at `valves[0]`; a `ZeroDivisionError`
raised by the operation leaves the already-performed mutations in place. -/
def DataPath.alu_working (dp : DataPath) (operation : Opcode := Opcode.ADD)
    (valves : List Operands := [Operands.ACC]) : DataPath × Option PyErr :=
  match valves with
  | [] => (dp, some PyErr.indexError)
  | v1 :: rest =>
    let dp1 := { dp with alu_out := dp.get_bus_value v1 }
    let dp2 :=
      if Operands.ACC ∈ v1 :: rest then
        { dp1 with flags := { z := decide (dp1.acc = 0), n := decide (dp1.alu_out < 0) } }
      else dp1
    if operation ∈ [Opcode.INC, Opcode.DEC, Opcode.MOVH] then
      DataPath.assign_alu_out (dp2.execute_alu_operation operation)
    else
      match rest with
      | v2 :: _ =>
        DataPath.assign_alu_out (dp2.execute_alu_operation operation (dp2.get_bus_value v2))
      | [] => (dp2, none)

/-- The nested `ControlUnit.Timer` state. -/
structure Timer where
  time : Int
  timer_delay : Int
deriving DecidableEq, Repr

/-- `Timer.__init__`: `time = -2`, `timer_delay = 0`.  `ControlUnit.__init__`
installs `self.timer = self.Timer()`. -/
def Timer.initial : Timer :=
  { time := -2, timer_delay := 0 }

/-- One instruction `{ index, opcode, arg? }`; `arg` is the optional key of the
Python dict. -/
structure Instr where
  index : Nat
  opcode : Opcode
  arg : Option Int
deriving DecidableEq, Repr

/-- The ControlUnit state (`ControlUnit.__init__` plus the `instr` attribute the
execute loop creates). -/
structure ControlUnit where
  ip : Int
  instructions : List Instr
  data_path : DataPath
  timer : Timer
  _tick : Nat
  int_vector : Int
  instr_counter : Nat
  ei : Bool
  int_rq : Bool
  instr : Option Instr
deriving DecidableEq, Repr

/-- `ControlUnit.get_ticks()`. -/
def ControlUnit.get_ticks (cu : ControlUnit) : Nat :=
  cu._tick

/-- `ControlUnit.tick()`: advances the tick counter, feeds the input port,
clears `alu_out` and `memory_out`, then — only when `ei` — increments the timer
and raises `int_rq` when `time % timer_delay == 0`.  With `ei` set and
`timer_delay = 0` the Python expression `time % 0` raises `ZeroDivisionError`;
the mutations made before that point remain. -/
def ControlUnit.tick (cu : ControlUnit) : ControlUnit × Option PyErr :=
  let t := cu._tick + 1
  let dp0 := cu.data_path
  let dp1 := { dp0 with ports := dp0.ports.add_input t, alu_out := 0, memory_out := 0 }
  let cu1 := { cu with _tick := t, data_path := dp1 }
  if cu1.ei then
    let tm : Timer := { cu1.timer with time := cu1.timer.time + 1 }
    let cu2 := { cu1 with timer := tm }
    if tm.timer_delay = 0 then (cu2, some PyErr.zeroDivision)
    else if Int.fmod tm.time tm.timer_delay = 0 then ({ cu2 with int_rq := true }, none)
    else (cu2, none)
  else (cu1, none)

/-- `ControlUnit.signal_latch_ip(signal=NEXT_IP, arg=0)`. -/
def ControlUnit.signal_latch_ip (cu : ControlUnit) (signal : Signal := Signal.NEXT_IP)
    (arg : Int := 0) : ControlUnit :=
  match signal with
  | Signal.NEXT_IP => { cu with ip := cu.ip + 1 }
  | Signal.JMP_ARG => { cu with ip := arg }
  | Signal.DATA_IP => { cu with ip := cu.data_path.alu_out }
  | _ => cu

/-- Python list read of the instruction sequence (same index rules as
`pyListGet`, for a list of instructions). -/
def pyInstrGet (l : List Instr) (i : Int) : Option Instr :=
  if 0 ≤ i ∧ i < l.length then l.get? i.toNat
  else if -(l.length : Int) ≤ i ∧ i < 0 then l.get? ((l.length : Int) + i).toNat
  else none

/-- Modelled from the spec: the Decoder (`machine/decoder.py`) is not in the
source tree and is declared an out-of-scope black box.  Each decode method
performs zero or more signal invocations against the DataPath, may mutate the
ControlUnit directly (CALL/IRET/ISR), and may fail; `decode_flow_commands`
additionally returns the IP-update signal.  The execute loop below is stated
for an arbitrary such model. -/
structure DecoderModel where
  decode_memory_commands : ControlUnit → Opcode → Int → Option ControlUnit
  decode_arithmetic_commands : ControlUnit → Opcode → Int → Option ControlUnit
  decode_flow_commands : ControlUnit → Opcode → Int → Option (ControlUnit × Signal)
  decode_subprogram_commands : ControlUnit → Opcode → Int → Option ControlUnit
  decode_interrupt_commands : ControlUnit → Opcode → Int → Option ControlUnit
  decode_stack_commands : ControlUnit → Opcode → Int → Option ControlUnit
  decode_io_commands : ControlUnit → Opcode → Int → Option ControlUnit

/-- `ControlUnit.execute()`: the fetch/dispatch/IP-update/interrupt-check loop,
with the decoder abstracted by a `DecoderModel` and bounded by fuel (`none`
means fuel ran out or a lookup/decode failed).  On fetching `HALT` it returns
immediately: the joined output buffer, the executed-instruction counter and the
tick counter, none of them advanced by the halting fetch. -/
def executeLoop (d : DecoderModel) : Nat → ControlUnit → Option (String × Nat × Nat)
  | 0, _ => none
  | fuel + 1, cu =>
    match pyInstrGet cu.instructions cu.ip with
    | none => none
    | some instr =>
      if instr.opcode = Opcode.HALT then
        some (String.join cu.data_path.ports.output_buffer, cu.instr_counter, cu._tick)
      else
        let cu := { cu with instr := some instr, instr_counter := cu.instr_counter + 1 }
        let arg := instr.arg.getD 0
        let op := instr.opcode
        let step : Option (ControlUnit × Signal) :=
          if op ∈ [Opcode.LOAD, Opcode.STORE] then
            (d.decode_memory_commands cu op arg).map (fun c => (c, Signal.NEXT_IP))
          else if op ∈ arithmetic_operations then
            (d.decode_arithmetic_commands cu op arg).map (fun c => (c, Signal.NEXT_IP))
          else if op ∈ [Opcode.JMP, Opcode.JGE, Opcode.JE, Opcode.JNE] then
            d.decode_flow_commands cu op arg
          else if op ∈ [Opcode.CALL, Opcode.RET, Opcode.IRET, Opcode.FUNC] then
            (d.decode_subprogram_commands cu op arg).map (fun c => (c, Signal.NEXT_IP))
          else if op ∈ [Opcode.EI, Opcode.DI, Opcode.VECTOR, Opcode.TIMER] then
            (d.decode_interrupt_commands cu op arg).map (fun c => (c, Signal.NEXT_IP))
          else if op ∈ [Opcode.PUSH, Opcode.POP] then
            (d.decode_stack_commands cu op arg).map (fun c => (c, Signal.NEXT_IP))
          else if op ∈ [Opcode.IN, Opcode.OUT, Opcode.SIGN] then
            (d.decode_io_commands cu op arg).map (fun c => (c, Signal.NEXT_IP))
          else some (cu, Signal.NEXT_IP)
        match step with
        | none => none
        | some (cu, signal) =>
          let cu := if op ∉ [Opcode.CALL, Opcode.IRET] then cu.signal_latch_ip signal arg else cu
          match (if cu.int_rq then d.decode_subprogram_commands cu Opcode.ISR arg
                 else some cu) with
          | none => none
          | some cu => executeLoop d fuel cu

/-! ## Spec-side definitions and concrete states -/

/-- The specification's arithmetic denotation for the binary ALU operations:
exact integer arithmetic, with floor semantics for division and remainder
("truncating-toward-negative-infinity"). Stated from the spec's words, to be
compared with the embedded `execute_alu_operation`. -/
def spec_binary_op (op : Opcode) (a b : Int) : Int :=
  match op with
  | Opcode.ADD => a + b
  | Opcode.SUB => a - b
  | Opcode.MUL => a * b
  | Opcode.DIV => Int.fdiv a b
  | Opcode.REM => Int.fmod a b
  | _ => 0

/-- A trivial decoder model (every decode succeeds and changes nothing),
used to instantiate `executeLoop` at concrete inputs. -/
def trivialDecoder : DecoderModel :=
  { decode_memory_commands := fun c _ _ => some c
    decode_arithmetic_commands := fun c _ _ => some c
    decode_flow_commands := fun c _ _ => some (c, Signal.NEXT_IP)
    decode_subprogram_commands := fun c _ _ => some c
    decode_interrupt_commands := fun c _ _ => some c
    decode_stack_commands := fun c _ _ => some c
    decode_io_commands := fun c _ _ => some c }

def ports0 : Ports :=
  { input_tokens := [], output_buffer := [] }

def dp_acc5 : DataPath :=
  { DataPath.init 4 ports0 with acc := 5 }

def dp_div : DataPath :=
  { DataPath.init 4 ports0 with acc := 7, buf_reg := 3 }

def dp_mem : DataPath :=
  { DataPath.init 3 ports0 with data_memory := [10, 20, 30], address_reg := 1, alu_out := 9 }

def dp_mem_oob : DataPath :=
  { dp_mem with address_reg := 5 }

def dp_mem_neg : DataPath :=
  { dp_mem with address_reg := -1 }

def haltInstr : Instr :=
  { index := 0, opcode := Opcode.HALT, arg := none }

def cu_delay0 : ControlUnit :=
  { ip := 0
    instructions := [haltInstr]
    data_path := DataPath.init 4 ports0
    timer := Timer.initial
    _tick := 0
    int_vector := 0
    instr_counter := 0
    ei := true
    int_rq := false
    instr := none }

def cu_timer3 : ControlUnit :=
  { cu_delay0 with ei := true, timer := { time := 2, timer_delay := 3 } }

def cu_ei_off : ControlUnit :=
  { cu_delay0 with ei := false, timer := { time := 7, timer_delay := 5 } }

/-! ## Helper lemmas -/

lemma get_bus_value_set_alu_flags (dp : DataPath) (a : Int) (f : Flags) (v : Operands) :
    DataPath.get_bus_value { dp with alu_out := a, flags := f } v = dp.get_bus_value v := by
  cases v <;> rfl

lemma get_bus_value_set_alu (dp : DataPath) (a : Int) (v : Operands) :
    DataPath.get_bus_value { dp with alu_out := a } v = dp.get_bus_value v := by
  cases v <;> rfl

lemma execute_alu_operation_state (dp : DataPath) (op : Opcode) (value : Int)
    (h : op ≠ Opcode.CMP) : (dp.execute_alu_operation op value).1 = dp := by
  cases op <;> simp only [DataPath.execute_alu_operation] <;>
    first
      | rfl
      | (split <;> rfl)
      | exact absurd rfl h

lemma assign_alu_out_flags (r : DataPath × Except PyErr (Option Int)) :
    ((DataPath.assign_alu_out r).1).flags = (r.1).flags := by
  rcases r with ⟨dp3, r⟩
  rcases r with r | r
  · rfl
  · rcases r with _ | v <;> rfl

lemma pyListGet_inbounds (l : List Int) (i : Int) (h0 : 0 ≤ i) (h1 : i < (l.length : Int)) :
    pyListGet l i = some (l.getD i.toNat 0) := by
  have hn : i.toNat < l.length := by omega
  unfold pyListGet
  rw [if_pos ⟨h0, h1⟩, List.get?_eq_getElem?, List.getD_eq_getElem?_getD,
    List.getElem?_eq_getElem hn]
  rfl

lemma pyListGet_neg (l : List Int) (i : Int) (h0 : -(l.length : Int) ≤ i) (h1 : i < 0) :
    pyListGet l i = some (l.getD ((l.length : Int) + i).toNat 0) := by
  have hn : ((l.length : Int) + i).toNat < l.length := by omega
  unfold pyListGet
  rw [if_neg (by omega), if_pos ⟨h0, h1⟩, List.get?_eq_getElem?, List.getD_eq_getElem?_getD,
    List.getElem?_eq_getElem hn]
  rfl

lemma pyListSet_inbounds (l : List Int) (i a : Int) (h0 : 0 ≤ i) (h1 : i < (l.length : Int)) :
    pyListSet l i a = some (l.set i.toNat a) := by
  unfold pyListSet
  rw [if_pos ⟨h0, h1⟩]

lemma pyListSet_neg (l : List Int) (i a : Int) (h0 : -(l.length : Int) ≤ i) (h1 : i < 0) :
    pyListSet l i a = some (l.set ((l.length : Int) + i).toNat a) := by
  unfold pyListSet
  rw [if_neg (by omega), if_pos ⟨h0, h1⟩]

/-! ## Claims -/

/-- Claim C1, evaluated at the failing input: at a concrete ControlUnit state
with `ei = true` and `timer_delay = 0`, `tick` raises `ZeroDivisionError`
evaluating `time % 0` — it does not complete silently as the claim states —
while `int_rq` indeed stays `false`. -/
theorem tick_with_ei_and_zero_delay_raises :
    (cu_delay0.tick).2 = some PyErr.zeroDivision ∧
    (cu_delay0.tick).1.int_rq = false := by
  exact ⟨rfl, rfl⟩

/-- Claim C2, counterexample: an `alu_working` invocation with `DIV` whose
second bus operand is 0 does fail with the divide-by-zero error, but the
failing invocation has mutated a register: `alu_out` was 0 before the call and
is 5 (the accumulator's value, loaded by the first step) after it. -/
theorem alu_div_zero_mutates_alu_out :
    (dp_acc5.alu_working Opcode.DIV [Operands.ACC, Operands.BUF]).2 = some PyErr.zeroDivision ∧
    dp_acc5.alu_out = 0 ∧
    ((dp_acc5.alu_working Opcode.DIV [Operands.ACC, Operands.BUF]).1).alu_out = 5 :=
  ⟨rfl, rfl, rfl⟩

/-- Claim C2 as amended: a `DIV`/`REM` invocation of `alu_working` whose second
bus operand evaluates to 0 fails with the divide-by-zero error; the
accumulator, buffer register, stack pointer, address register, `memory_out`
and the data memory are not mutated, but `alu_out` has already been loaded
with the first operand's bus value and — when the accumulator is among the
operands — the flags have already been recomputed when the failure occurs. -/
theorem alu_div_rem_zero_error_state (dp : DataPath) (op : Opcode) (v1 v2 : Operands)
    (rest : List Operands) (hop : op = Opcode.DIV ∨ op = Opcode.REM)
    (hz : dp.get_bus_value v2 = 0) :
    dp.alu_working op (v1 :: v2 :: rest) =
      ({ dp with
          alu_out := dp.get_bus_value v1,
          flags := if Operands.ACC ∈ v1 :: v2 :: rest then
              { z := decide (dp.acc = 0), n := decide (dp.get_bus_value v1 < 0) }
            else dp.flags },
        some PyErr.zeroDivision) := by
  rcases hop with rfl | rfl <;>
    by_cases hm : Operands.ACC ∈ v1 :: v2 :: rest <;>
      simp [DataPath.alu_working, hm, DataPath.execute_alu_operation, DataPath.assign_alu_out,
        get_bus_value_set_alu_flags, get_bus_value_set_alu, hz]

/-- Claim C2 witness: the amended statement instantiated at a concrete
DataPath (accumulator 5, buffer 0, `DIV` over `[ACC, BUF]`). -/
theorem alu_div_rem_zero_error_state_witness :
    dp_acc5.alu_working Opcode.DIV [Operands.ACC, Operands.BUF] =
      ({ dp_acc5 with
          alu_out := dp_acc5.get_bus_value Operands.ACC,
          flags := if Operands.ACC ∈ [Operands.ACC, Operands.BUF] then
              { z := decide (dp_acc5.acc = 0),
                n := decide (dp_acc5.get_bus_value Operands.ACC < 0) }
            else dp_acc5.flags },
        some PyErr.zeroDivision) :=
  alu_div_rem_zero_error_state dp_acc5 Opcode.DIV Operands.ACC Operands.BUF [] (Or.inl rfl)
    (by decide)

/-- Claim C3: whenever the accumulator is among the bus operands of an
`alu_working` invocation with a non-CMP operation, the flags that invocation
leaves are the snapshot taken before the operation is applied: zero from the
accumulator's own value (`acc == 0`) and negative from the freshly loaded
`alu_out` (the first operand's bus value, `< 0`). -/
theorem alu_flags_snapshot (dp : DataPath) (op : Opcode) (v1 : Operands) (rest : List Operands)
    (hop : op ≠ Opcode.CMP) (hacc : Operands.ACC ∈ v1 :: rest) :
    ((dp.alu_working op (v1 :: rest)).1).flags =
      { z := decide (dp.acc = 0), n := decide (dp.get_bus_value v1 < 0) } := by
  have key : ∀ (dp2 : DataPath) (val : Int),
      ((DataPath.assign_alu_out (dp2.execute_alu_operation op val)).1).flags = dp2.flags := by
    intro dp2 val
    rw [assign_alu_out_flags, execute_alu_operation_state dp2 op val hop]
  simp only [DataPath.alu_working, hacc, if_true]
  by_cases hu : op ∈ [Opcode.INC, Opcode.DEC, Opcode.MOVH]
  · simp only [hu, if_true, key]
  · simp only [hu, if_false]
    cases rest with
    | nil => rfl
    | cons v2 r => simp only [key]

/-- Claim C3 witness: the flag snapshot at a concrete DataPath
(an `ADD` sourced from the accumulator, accumulator 5). -/
theorem alu_flags_snapshot_witness :
    ((dp_acc5.alu_working Opcode.ADD [Operands.ACC]).1).flags =
      { z := decide (dp_acc5.acc = 0), n := decide (dp_acc5.get_bus_value Operands.ACC < 0) } :=
  alu_flags_snapshot dp_acc5 Opcode.ADD Operands.ACC [] (by decide) (by decide)

/-- Claim C4: the compare operation leaves the arithmetic value of `alu_out`
unchanged and only sets the flags to `{zero: alu_out == operand2,
negative: alu_out < operand2}`.  First conjunct: `execute_alu_operation` with
`CMP` returns the incoming `alu_out` and mutates nothing but the flags.
Second conjunct: through `alu_working`, `alu_out` ends at the value loaded
from the first bus operand (the compare changed nothing), and the flags
compare that value against the second bus operand's value. -/
theorem cmp_preserves_alu_out :
    (∀ (dp : DataPath) (value : Int),
        dp.execute_alu_operation Opcode.CMP value =
          ({ dp with flags := { z := decide (dp.alu_out = value),
                                n := decide (dp.alu_out < value) } },
           Except.ok (some dp.alu_out))) ∧
    (∀ (dp : DataPath) (v1 v2 : Operands) (rest : List Operands),
        dp.alu_working Opcode.CMP (v1 :: v2 :: rest) =
          ({ dp with
              alu_out := dp.get_bus_value v1,
              flags := { z := decide (dp.get_bus_value v1 = dp.get_bus_value v2),
                         n := decide (dp.get_bus_value v1 < dp.get_bus_value v2) } },
            none)) := by
  constructor
  · intro dp value
    rfl
  · intro dp v1 v2 rest
    by_cases hm : Operands.ACC ∈ v1 :: v2 :: rest
    · simp only [DataPath.alu_working, hm, if_true]
      simp [DataPath.execute_alu_operation, DataPath.assign_alu_out, get_bus_value_set_alu_flags]
    · simp only [DataPath.alu_working, hm, if_false]
      simp [DataPath.execute_alu_operation, DataPath.assign_alu_out, get_bus_value_set_alu]

/-- Claim C5: every binary `alu_working` invocation with `ADD`, `SUB`, `MUL`,
`DIV` or `REM` (second operand nonzero for `DIV`/`REM`) succeeds and leaves
`alu_out` equal to the spec's denotation of the operation on the two bus
operand values — exact integer arithmetic with floor semantics for division
and remainder. -/
theorem alu_binary_semantics (dp : DataPath) (op : Opcode) (v1 v2 : Operands)
    (rest : List Operands)
    (hop : op ∈ [Opcode.ADD, Opcode.SUB, Opcode.MUL, Opcode.DIV, Opcode.REM])
    (hz : (op = Opcode.DIV ∨ op = Opcode.REM) → dp.get_bus_value v2 ≠ 0) :
    (dp.alu_working op (v1 :: v2 :: rest)).2 = none ∧
    ((dp.alu_working op (v1 :: v2 :: rest)).1).alu_out =
      spec_binary_op op (dp.get_bus_value v1) (dp.get_bus_value v2) := by
  simp only [List.mem_cons, List.not_mem_nil, or_false] at hop
  rcases hop with rfl | rfl | rfl | rfl | rfl
  · by_cases hm : Operands.ACC ∈ v1 :: v2 :: rest <;>
      simp [DataPath.alu_working, hm, DataPath.execute_alu_operation, DataPath.assign_alu_out,
        get_bus_value_set_alu_flags, get_bus_value_set_alu, spec_binary_op]
  · by_cases hm : Operands.ACC ∈ v1 :: v2 :: rest <;>
      simp [DataPath.alu_working, hm, DataPath.execute_alu_operation, DataPath.assign_alu_out,
        get_bus_value_set_alu_flags, get_bus_value_set_alu, spec_binary_op]
  · by_cases hm : Operands.ACC ∈ v1 :: v2 :: rest <;>
      simp [DataPath.alu_working, hm, DataPath.execute_alu_operation, DataPath.assign_alu_out,
        get_bus_value_set_alu_flags, get_bus_value_set_alu, spec_binary_op]
  · have hnz := hz (Or.inl rfl)
    by_cases hm : Operands.ACC ∈ v1 :: v2 :: rest <;>
      simp [DataPath.alu_working, hm, DataPath.execute_alu_operation, DataPath.assign_alu_out,
        get_bus_value_set_alu_flags, get_bus_value_set_alu, spec_binary_op, hnz]
  · have hnz := hz (Or.inr rfl)
    by_cases hm : Operands.ACC ∈ v1 :: v2 :: rest <;>
      simp [DataPath.alu_working, hm, DataPath.execute_alu_operation, DataPath.assign_alu_out,
        get_bus_value_set_alu_flags, get_bus_value_set_alu, spec_binary_op, hnz]

/-- Claim C5 witness: a concrete floor division, accumulator 7 divided by
buffer 3. -/
theorem alu_binary_semantics_witness :
    (dp_div.alu_working Opcode.DIV [Operands.ACC, Operands.BUF]).2 = none ∧
    ((dp_div.alu_working Opcode.DIV [Operands.ACC, Operands.BUF]).1).alu_out =
      spec_binary_op Opcode.DIV (dp_div.get_bus_value Operands.ACC)
        (dp_div.get_bus_value Operands.BUF) :=
  alu_binary_semantics dp_div Opcode.DIV Operands.ACC Operands.BUF [] (by decide)
    (fun _ => by decide)

/-- Claim C6: at the start of every tick, `alu_out` and `memory_out` are reset
to 0: whatever the ControlUnit state (and whether or not the tick's timer
update fails), the DataPath state the tick leaves behind — the state every
signal of that cycle subsequently reads — has `alu_out = 0` and
`memory_out = 0`. -/
theorem tick_resets_alu_and_memory_out (cu : ControlUnit) :
    ((cu.tick).1.data_path.alu_out = 0) ∧ ((cu.tick).1.data_path.memory_out = 0) := by
  unfold ControlUnit.tick
  dsimp only
  split_ifs <;> exact ⟨rfl, rfl⟩

/-- Claim C7: the timer counter starts at -2 (the `Timer.__init__` the
ControlUnit installs); each tick increments it by exactly 1 when `ei` is true
and leaves it (and `int_rq`) unchanged when `ei` is false; and on any tick
where `ei` is true, the delay is positive and the incremented counter is
divisible by the delay, the interrupt request is raised. -/
theorem timer_counter_semantics :
    Timer.initial.time = -2 ∧
    (∀ cu : ControlUnit, cu.ei = true → ((cu.tick).1).timer.time = cu.timer.time + 1) ∧
    (∀ cu : ControlUnit, cu.ei = false →
        ((cu.tick).1).timer = cu.timer ∧ ((cu.tick).1).int_rq = cu.int_rq) ∧
    (∀ cu : ControlUnit, cu.ei = true → 0 < cu.timer.timer_delay →
        Int.fmod (cu.timer.time + 1) cu.timer.timer_delay = 0 →
        ((cu.tick).1).int_rq = true) := by
  refine ⟨rfl, ?_, ?_, ?_⟩
  · intro cu h
    unfold ControlUnit.tick
    simp only [h, if_true]
    split_ifs <;> rfl
  · intro cu h
    unfold ControlUnit.tick
    simp only [h]
    exact ⟨rfl, rfl⟩
  · intro cu h hd hm
    unfold ControlUnit.tick
    simp only [h, if_true]
    split_ifs with h0
    · exact absurd h0 (by omega)
    · rfl

/-- Claim C7 witness: concrete instantiations — with `ei` true the counter
advances by 1 and (delay 3, counter reaching 3) the request is raised; with
`ei` false the timer and request flag are untouched. -/
theorem timer_counter_semantics_witness :
    ((cu_timer3.tick).1).timer.time = cu_timer3.timer.time + 1 ∧
    (((cu_ei_off.tick).1).timer = cu_ei_off.timer ∧
      ((cu_ei_off.tick).1).int_rq = cu_ei_off.int_rq) ∧
    ((cu_timer3.tick).1).int_rq = true := by
  refine ⟨timer_counter_semantics.2.1 cu_timer3 rfl,
    timer_counter_semantics.2.2.1 cu_ei_off rfl,
    timer_counter_semantics.2.2.2 cu_timer3 rfl (by decide) (by decide)⟩

/-- Claim C8: with the address register in bounds (`0 <= address_reg < len`),
`memory_manager` `READ` copies the addressed memory cell into `memory_out` and
changes nothing else, and `WRITE` stores `alu_out` into the addressed cell and
changes nothing else; with `address_reg >= len` both raise the memory-bounds
(`IndexError`) failure and change nothing. -/
theorem memory_manager_bounds (dp : DataPath) :
    (0 ≤ dp.address_reg → dp.address_reg < (dp.data_memory.length : Int) →
      dp.memory_manager Signal.READ =
        ({ dp with memory_out := dp.data_memory.getD dp.address_reg.toNat 0 }, none) ∧
      dp.memory_manager Signal.WRITE =
        ({ dp with data_memory := dp.data_memory.set dp.address_reg.toNat dp.alu_out }, none)) ∧
    ((dp.data_memory.length : Int) ≤ dp.address_reg →
      dp.memory_manager Signal.READ = (dp, some PyErr.indexError) ∧
      dp.memory_manager Signal.WRITE = (dp, some PyErr.indexError)) := by
  constructor
  · intro h0 h1
    have hg := pyListGet_inbounds dp.data_memory dp.address_reg h0 h1
    have hs := pyListSet_inbounds dp.data_memory dp.address_reg dp.alu_out h0 h1
    constructor <;> simp [DataPath.memory_manager, hg, hs]
  · intro h
    have hg : pyListGet dp.data_memory dp.address_reg = none := by
      unfold pyListGet
      rw [if_neg (by omega), if_neg (by omega)]
    have hs : pyListSet dp.data_memory dp.address_reg dp.alu_out = none := by
      unfold pyListSet
      rw [if_neg (by omega), if_neg (by omega)]
    constructor <;> simp [DataPath.memory_manager, hg, hs]

/-- Claim C8 witness: a concrete in-bounds read and write (memory `[10,20,30]`,
address 1) and a concrete out-of-bounds failure (address 5). -/
theorem memory_manager_bounds_witness :
    (dp_mem.memory_manager Signal.READ =
        ({ dp_mem with memory_out := dp_mem.data_memory.getD dp_mem.address_reg.toNat 0 },
          none) ∧
      dp_mem.memory_manager Signal.WRITE =
        ({ dp_mem with
            data_memory := dp_mem.data_memory.set dp_mem.address_reg.toNat dp_mem.alu_out },
          none)) ∧
    (dp_mem_oob.memory_manager Signal.READ = (dp_mem_oob, some PyErr.indexError) ∧
      dp_mem_oob.memory_manager Signal.WRITE = (dp_mem_oob, some PyErr.indexError)) :=
  ⟨(memory_manager_bounds dp_mem).1 (by decide) (by decide),
   (memory_manager_bounds dp_mem_oob).2 (by decide)⟩

/-- Claim C9: when the instruction at the current instruction pointer has
opcode `HALT`, `execute` terminates immediately for any decoder behaviour: it
returns the 3-tuple of the joined output buffer, the executed-instruction
counter and the tick counter, none of them advanced by the halting fetch. -/
theorem execute_halts_immediately (d : DecoderModel) (fuel : Nat) (cu : ControlUnit)
    (instr : Instr) (hfetch : pyInstrGet cu.instructions cu.ip = some instr)
    (hhalt : instr.opcode = Opcode.HALT) :
    executeLoop d (fuel + 1) cu =
      some (String.join cu.data_path.ports.output_buffer, cu.instr_counter, cu._tick) := by
  unfold executeLoop
  rw [hfetch]
  simp [hhalt]

/-- Claim C9 witness: a concrete ControlUnit whose program is a single `HALT`
terminates at once with its (zero) counters and empty output. -/
theorem execute_halts_immediately_witness :
    executeLoop trivialDecoder 1 cu_delay0 =
      some (String.join cu_delay0.data_path.ports.output_buffer, cu_delay0.instr_counter,
        cu_delay0._tick) :=
  execute_halts_immediately trivialDecoder 0 cu_delay0 haltInstr (by decide) rfl

/-- Claim C10: a `memory_manager` invocation with a negative address register
in `[-len, 0)` raises no bounds error: `READ` copies the cell at index
`len + address_reg` into `memory_out`, and `WRITE` stores `alu_out` into that
same cell — negative addresses silently wrap to the end of data memory. -/
theorem memory_manager_negative_wrap (dp : DataPath)
    (h0 : -(dp.data_memory.length : Int) ≤ dp.address_reg) (h1 : dp.address_reg < 0) :
    dp.memory_manager Signal.READ =
      ({ dp with memory_out :=
          dp.data_memory.getD ((dp.data_memory.length : Int) + dp.address_reg).toNat 0 }, none) ∧
    dp.memory_manager Signal.WRITE =
      ({ dp with data_memory :=
          dp.data_memory.set ((dp.data_memory.length : Int) + dp.address_reg).toNat dp.alu_out },
        none) := by
  have hg := pyListGet_neg dp.data_memory dp.address_reg h0 h1
  have hs := pyListSet_neg dp.data_memory dp.address_reg dp.alu_out h0 h1
  constructor <;> simp [DataPath.memory_manager, hg, hs]

/-- Claim C10 witness: address -1 over memory `[10,20,30]` reads and writes
cell 2. -/
theorem memory_manager_negative_wrap_witness :
    dp_mem_neg.memory_manager Signal.READ =
      ({ dp_mem_neg with memory_out :=
          (dp_mem_neg.data_memory.getD
            ((dp_mem_neg.data_memory.length : Int) + dp_mem_neg.address_reg).toNat 0) }, none) ∧
    dp_mem_neg.memory_manager Signal.WRITE =
      ({ dp_mem_neg with data_memory :=
          (dp_mem_neg.data_memory.set
            ((dp_mem_neg.data_memory.length : Int) + dp_mem_neg.address_reg).toNat
            dp_mem_neg.alu_out) }, none) :=
  memory_manager_negative_wrap dp_mem_neg (by decide) (by decide)
